import Mathlib

/-
Verification of the UDP socket adapter (embassy-net/src/udp.rs).

The adapter layers an async datagram-socket API over a shared engine
context (SocketStack).  The engine primitives (the smoltcp udp socket:
recv_slice, send_slice, bind, close, status queries) and the context's
ephemeral-port allocator live outside src/; they are modelled from the
spec where noted.  Everything in the UdpSocket namespace is translated
directly from udp.rs.
-/

set_option maxRecDepth 4000

/-- A concrete remote endpoint: an abstract address plus a port. -/
structure IpEndpoint where
  addr : Nat
  port : Nat
deriving DecidableEq, Repr

/-- A listen endpoint: address optionally wildcard (none), port (0 meaning any). -/
structure IpListenEndpoint where
  addr : Option Nat
  port : Nat
deriving DecidableEq, Repr

/-- A complete datagram: payload bytes tagged with the remote endpoint. -/
structure Datagram where
  payload : List Nat
  endpoint : IpEndpoint
deriving DecidableEq, Repr

/-- Modelled from the spec: the network interface / engine routing state,
abstracted as the set of addresses for which a route is configured
(the engine itself is an external collaborator, not under src/). -/
structure Interface where
  routable : List Nat
deriving DecidableEq, Repr

/-- Modelled from the spec: whether a remote endpoint is addressable from
the interface (no route, or address mismatch, makes it unaddressable). -/
def routableTo (iface : Interface) (e : IpEndpoint) : Bool :=
  decide (e.port ≠ 0) && iface.routable.contains e.addr

/-- Modelled from the spec: whether a listen endpoint can be serviced by
the configured interface (wildcard address is always serviceable; an
explicit address must have a route; port must be resolved, nonzero). -/
def serviceable (iface : Interface) (e : IpListenEndpoint) : Bool :=
  decide (e.port ≠ 0) &&
    (match e.addr with
     | none => true
     | some a => iface.routable.contains a)

/-- Modelled from the spec: per-socket engine state — local endpoint
binding, inbound/outbound FIFO packet buffers (outbound capacity fixed
at construction, counted in datagrams), and the per-operation send
waker slot used by the engine's progress-dependent wake. -/
structure UdpEngineSocket where
  endpoint : IpListenEndpoint
  rxQueue : List Datagram
  txQueue : List Datagram
  txCapacity : Nat
  sendWaker : Bool
deriving DecidableEq, Repr

/-- Engine-side receive error (udp::RecvError): the inbound buffer is empty. -/
inductive RecvError where
  | exhausted
deriving DecidableEq, Repr

/-- Engine-side send error (udp::SendError). -/
inductive SendError where
  | bufferFull
  | unaddressable
deriving DecidableEq, Repr

/-- Engine-side bind error (udp::BindError). -/
inductive EngineBindError where
  | invalidState
  | unaddressable
deriving DecidableEq, Repr

namespace UdpEngineSocket

/-- Modelled from the spec: the socket is open iff it has completed a
successful bind and not been closed (a bound socket holds a nonzero port). -/
def is_open (s : UdpEngineSocket) : Bool :=
  decide (s.endpoint.port ≠ 0)

/-- Modelled from the spec: engine bind — fails with InvalidState if the
socket is already open, with Unaddressable if the endpoint cannot be
serviced by the configured interface; otherwise records the binding. -/
def bind (s : UdpEngineSocket) (iface : Interface) (e : IpListenEndpoint) :
    Except EngineBindError Unit × UdpEngineSocket :=
  if s.is_open then (Except.error EngineBindError.invalidState, s)
  else if serviceable iface e then (Except.ok (), { s with endpoint := e })
  else (Except.error EngineBindError.unaddressable, s)

/-- Modelled from the spec: engine receive — dequeues the oldest inbound
datagram (strict FIFO), copying min(payload length, caller buffer length)
bytes; reports Exhausted when the inbound buffer is empty. -/
def recv_slice (s : UdpEngineSocket) (bufLen : Nat) :
    Except RecvError (Nat × IpEndpoint) × UdpEngineSocket :=
  match s.rxQueue with
  | [] => (Except.error RecvError.exhausted, s)
  | d :: rest =>
      (Except.ok (min d.payload.length bufLen, d.endpoint), { s with rxQueue := rest })

/-- Modelled from the spec: engine send — rejects an unaddressable
destination; reports BufferFull when the outbound buffer has no free
slot; otherwise enqueues the entire datagram in one atomic step. -/
def send_slice (s : UdpEngineSocket) (iface : Interface) (payload : List Nat)
    (remote : IpEndpoint) : Except SendError Unit × UdpEngineSocket :=
  if ¬ routableTo iface remote then (Except.error SendError.unaddressable, s)
  else if s.txCapacity ≤ s.txQueue.length then (Except.error SendError.bufferFull, s)
  else (Except.ok (), { s with txQueue := s.txQueue ++ [⟨payload, remote⟩] })

/-- Modelled from the spec: registers the suspended sender's wake callback
with the engine so it is resumed when outbound capacity frees up. -/
def register_send_waker (s : UdpEngineSocket) : UdpEngineSocket :=
  { s with sendWaker := true }

/-- Modelled from the spec: engine close — returns the socket toward the
unbound/idle state (clears the endpoint binding). -/
def close (s : UdpEngineSocket) : UdpEngineSocket :=
  { s with endpoint := ⟨none, 0⟩ }

/-- Modelled from the spec: readiness to send, based on free outbound
buffer capacity; mutates nothing. -/
def can_send (s : UdpEngineSocket) : Bool :=
  decide (s.txQueue.length < s.txCapacity)

/-- Modelled from the spec: readiness to receive, based on buffered
inbound datagrams; mutates nothing. -/
def can_recv (s : UdpEngineSocket) : Bool :=
  ¬ s.rxQueue.isEmpty

end UdpEngineSocket

/-- Handle-indexed socket pool lookup (SocketSet::get). -/
def lookupSock : List (Nat × UdpEngineSocket) → Nat → Option UdpEngineSocket
  | [], _ => none
  | (k, s) :: rest, h => if k = h then some s else lookupSock rest h

/-- Handle-indexed socket pool in-place update (SocketSet::get_mut). -/
def updateSock : List (Nat × UdpEngineSocket) → Nat → UdpEngineSocket →
    List (Nat × UdpEngineSocket)
  | [], _, _ => []
  | (k, s) :: rest, h, s2 =>
      if k = h then (k, s2) :: rest else (k, s) :: updateSock rest h s2

/-- Handle removal from the socket pool (SocketSet::remove). -/
def removeSock : List (Nat × UdpEngineSocket) → Nat → List (Nat × UdpEngineSocket)
  | [], _ => []
  | (k, s) :: rest, h =>
      if k = h then removeSock rest h else (k, s) :: removeSock rest h

/-- Reserved ephemeral port range, lower bound. -/
def LOCAL_PORT_MIN : Nat := 1025

/-- Reserved ephemeral port range, upper bound. -/
def LOCAL_PORT_MAX : Nat := 65535

/-- The Shared Engine Context (SocketStack): socket pool, interface state,
ephemeral-port allocator state, and the count of process-wide wake
signals issued so far. -/
structure SocketStack where
  sockets : List (Nat × UdpEngineSocket)
  nextHandle : Nat
  iface : Interface
  nextLocalPortOff : Nat
deriving DecidableEq, Repr

namespace SocketStack

/-- Pool lookup by handle. -/
def getSocket (st : SocketStack) (h : Nat) : Option UdpEngineSocket :=
  lookupSock st.sockets h

/-- Pool update by handle. -/
def setSocket (st : SocketStack) (h : Nat) (s : UdpEngineSocket) : SocketStack :=
  { st with sockets := updateSock st.sockets h s }

/-- Pool insertion: returns a fresh handle (SocketSet::add). -/
def addSocket (st : SocketStack) (s : UdpEngineSocket) : Nat × SocketStack :=
  (st.nextHandle,
   { st with sockets := st.sockets ++ [(st.nextHandle, s)],
             nextHandle := st.nextHandle + 1 })

/-- Modelled from the spec: the Shared Engine Context's ephemeral-port
allocator (get_local_port, not under src/): picks the next port from the
reserved ephemeral range, advancing the allocator state; it accesses the
context directly, not through the guarded-write path. -/
def get_local_port (st : SocketStack) : Nat × SocketStack :=
  (LOCAL_PORT_MIN + st.nextLocalPortOff % (LOCAL_PORT_MAX - LOCAL_PORT_MIN + 1),
   { st with nextLocalPortOff := st.nextLocalPortOff + 1 })

end SocketStack

/-- Observable events of one adapter operation, in order: guarded borrow
of the shared context taken / released, the process-wide wake signal
(waker.wake in with_mut), the caller waking its own task immediately
(cx.waker().wake_by_ref in recv_from), and the future suspending
(returning Pending to the executor). -/
inductive Ev where
  | acquire
  | release
  | wake
  | selfWake
  | yieldEv
deriving DecidableEq, Repr

/-- Occurrence count of one event in a trace. -/
def countEv (e : Ev) : List Ev → Nat
  | [] => 0
  | x :: rest => (if x = e then 1 else 0) + countEv e rest

/-- Checks that every suspension in the trace happens while no guarded
borrow of the shared context is outstanding (depth tracks open guards). -/
def yieldsOutsideGuard : List Ev → Nat → Bool
  | [], _ => true
  | Ev.acquire :: rest, d => yieldsOutsideGuard rest (d + 1)
  | Ev.release :: rest, d => yieldsOutsideGuard rest (d - 1)
  | Ev.yieldEv :: rest, d => decide (d = 0) && yieldsOutsideGuard rest d
  | _ :: rest, d => yieldsOutsideGuard rest d

/-- Poll outcome of one scheduling turn of a suspending operation. -/
inductive Poll (α : Type) where
  | ready : α → Poll α
  | pending
deriving DecidableEq, Repr

/-- Adapter-level bind error (udp.rs BindError). -/
inductive BindError where
  | invalidState
  | noRoute
deriving DecidableEq, Repr

/-- Adapter-level send/receive error (udp.rs Error). -/
inductive Error where
  | noRoute
deriving DecidableEq, Repr

/-- The socket adapter: a handle into the shared pool (udp.rs UdpSocket). -/
structure UdpSocket where
  handle : Nat
deriving DecidableEq, Repr

namespace UdpSocket

/-- UdpSocket::new — builds fresh socket state around empty buffers with
the given outbound capacity, inserts it into the pool, and returns the
adapter bound to the fresh handle. -/
def new (st : SocketStack) (txCap : Nat) : UdpSocket × SocketStack :=
  let s : UdpEngineSocket :=
    { endpoint := ⟨none, 0⟩, rxQueue := [], txQueue := [],
      txCapacity := txCap, sendWaker := false }
  let (h, st2) := st.addSocket s
  (⟨h⟩, st2)

/-- UdpSocket::with — the read-only guarded path: looks the socket up and
applies a read closure to it and the interface; no mutation, no wake.
The trace records the guarded borrow. -/
def with_ref {R : Type} (u : UdpSocket) (st : SocketStack)
    (f : UdpEngineSocket → Interface → R) : Option (R × SocketStack × List Ev) :=
  match st.getSocket u.handle with
  | none => none
  | some s => some (f s st.iface, st, [Ev.acquire, Ev.release])

/-- UdpSocket::with_mut — the guarded-write path: looks the socket up,
runs the closure (which may emit events and replace socket and interface
state), then unconditionally signals the process-wide wake before the
borrow ends. -/
def with_mut {R : Type} (u : UdpSocket) (st : SocketStack)
    (f : UdpEngineSocket → Interface →
         (R × List Ev) × UdpEngineSocket × Interface) :
    Option (R × SocketStack × List Ev) :=
  match st.getSocket u.handle with
  | none => none
  | some s =>
      match f s st.iface with
      | ((r, evs), s2, if2) =>
          some (r, { st.setSocket u.handle s2 with iface := if2 },
                Ev.acquire :: evs ++ [Ev.wake, Ev.release])

/-- UdpSocket::bind — resolves a zero port through the context's
ephemeral-port allocator (direct access), then asks the engine to bind
through the guarded-write path, narrowing the engine's error taxonomy. -/
def bind (u : UdpSocket) (st : SocketStack) (endpoint : IpListenEndpoint) :
    Option (Except BindError Unit × SocketStack × List Ev) :=
  let (endpoint2, st1) :=
    if endpoint.port = 0 then
      let (p, stp) := st.get_local_port
      ({ endpoint with port := p }, stp)
    else (endpoint, st)
  match u.with_mut st1 (fun s iface =>
      match s.bind iface endpoint2 with
      | (r, s2) => ((r, []), s2, iface)) with
  | none => none
  | some (Except.ok (), st2, evs) => some (Except.ok (), st2, evs)
  | some (Except.error EngineBindError.invalidState, st2, evs) =>
      some (Except.error BindError.invalidState, st2, evs)
  | some (Except.error EngineBindError.unaddressable, st2, evs) =>
      some (Except.error BindError.noRoute, st2, evs)

/-- One poll of UdpSocket::recv_from — tries to dequeue the oldest inbound
datagram inside the guarded-write path; when the buffer is empty it wakes
its own task immediately and yields. -/
def recv_from_poll (u : UdpSocket) (st : SocketStack) (bufLen : Nat) :
    Option (Poll (Except Error (Nat × IpEndpoint)) × SocketStack × List Ev) :=
  match u.with_mut st (fun s _i =>
      match s.recv_slice bufLen with
      | (Except.ok x, s2) => ((Poll.ready (Except.ok x), []), s2, _i)
      | (Except.error RecvError.exhausted, s2) =>
          ((Poll.pending, [Ev.selfWake]), s2, _i)) with
  | none => none
  | some (Poll.pending, st2, evs) => some (Poll.pending, st2, evs ++ [Ev.yieldEv])
  | some (p, st2, evs) => some (p, st2, evs)

/-- One poll of UdpSocket::send_to — tries to enqueue the whole datagram
inside the guarded-write path; a full outbound buffer registers the send
waker with the engine and yields; an unaddressable destination completes
immediately with NoRoute. -/
def send_to_poll (u : UdpSocket) (st : SocketStack) (payload : List Nat)
    (remote : IpEndpoint) :
    Option (Poll (Except Error Unit) × SocketStack × List Ev) :=
  match u.with_mut st (fun s iface =>
      match s.send_slice iface payload remote with
      | (Except.ok (), s2) => ((Poll.ready (Except.ok ()), []), s2, iface)
      | (Except.error SendError.bufferFull, s2) =>
          ((Poll.pending, []), s2.register_send_waker, iface)
      | (Except.error SendError.unaddressable, s2) =>
          ((Poll.ready (Except.error Error.noRoute), []), s2, iface)) with
  | none => none
  | some (Poll.pending, st2, evs) => some (Poll.pending, st2, evs ++ [Ev.yieldEv])
  | some (p, st2, evs) => some (p, st2, evs)

/-- UdpSocket::endpoint — read-only status query through the read path. -/
def endpoint (u : UdpSocket) (st : SocketStack) :
    Option (IpListenEndpoint × SocketStack × List Ev) :=
  u.with_ref st (fun s _i => s.endpoint)

/-- UdpSocket::is_open — read-only status query through the read path. -/
def is_open (u : UdpSocket) (st : SocketStack) :
    Option (Bool × SocketStack × List Ev) :=
  u.with_ref st (fun s _i => s.is_open)

/-- UdpSocket::close — closes the engine socket through the guarded-write
path; the handle stays in the pool. -/
def close (u : UdpSocket) (st : SocketStack) :
    Option (Unit × SocketStack × List Ev) :=
  u.with_mut st (fun s _i => (((), []), s.close, _i))

/-- UdpSocket::may_send — read-only readiness query through the read path. -/
def may_send (u : UdpSocket) (st : SocketStack) :
    Option (Bool × SocketStack × List Ev) :=
  u.with_ref st (fun s _i => s.can_send)

/-- UdpSocket::may_recv — read-only readiness query through the read path. -/
def may_recv (u : UdpSocket) (st : SocketStack) :
    Option (Bool × SocketStack × List Ev) :=
  u.with_ref st (fun s _i => s.can_recv)

/-- Drop for UdpSocket — unconditionally removes the handle from the pool
by direct access (no guarded-write path, no wake). -/
def drop (u : UdpSocket) (st : SocketStack) : SocketStack :=
  { st with sockets := removeSock st.sockets u.handle }

end UdpSocket

/-! ### Concrete fixtures for evaluating the model -/

/-- Concrete interface for evaluation: routes configured for addresses 1 and 2. -/
def testIface : Interface := ⟨[1, 2]⟩

/-- Concrete datagram from address 1, port 5000. -/
def tD1 : Datagram := ⟨[10, 20], ⟨1, 5000⟩⟩

/-- Concrete datagram from address 2, port 6000. -/
def tD2 : Datagram := ⟨[30], ⟨2, 6000⟩⟩

/-- Concrete datagram from address 1, port 7000. -/
def tD3 : Datagram := ⟨[40, 50, 60], ⟨1, 7000⟩⟩

/-- A bound socket (port 9000) with three buffered inbound datagrams and
outbound capacity 2. -/
def testSock : UdpEngineSocket := ⟨⟨none, 9000⟩, [tD1, tD2, tD3], [], 2, false⟩

/-- An unbound socket with empty buffers. -/
def testSockU : UdpEngineSocket := ⟨⟨none, 0⟩, [], [], 2, false⟩

/-- A bound socket with empty inbound buffer and full outbound buffer. -/
def testSockFull : UdpEngineSocket :=
  ⟨⟨none, 9000⟩, [], [⟨[9], ⟨1, 80⟩⟩, ⟨[8], ⟨2, 81⟩⟩], 2, false⟩

/-- Context holding the bound socket at handle 0. -/
def testStack : SocketStack := ⟨[(0, testSock)], 1, testIface, 0⟩

/-- Context holding the unbound socket at handle 0. -/
def testStackU : SocketStack := ⟨[(0, testSockU)], 1, testIface, 0⟩

/-- Context holding the full-outbound socket at handle 0. -/
def testStackFull : SocketStack := ⟨[(0, testSockFull)], 1, testIface, 0⟩

/-- Adapter for handle 0. -/
def tU : UdpSocket := ⟨0⟩

/-! ### Pool lemmas -/

theorem lookupSock_updateSock_self {l : List (Nat × UdpEngineSocket)} {h : Nat}
    {s : UdpEngineSocket} (s2 : UdpEngineSocket) (hl : lookupSock l h = some s) :
    lookupSock (updateSock l h s2) h = some s2 := by
  induction l with
  | nil => simp [lookupSock] at hl
  | cons p rest ih =>
      obtain ⟨k, sk⟩ := p
      by_cases hk : k = h
      · simp [lookupSock, updateSock, hk]
      · simp only [lookupSock, updateSock, hk, if_false] at hl ⊢
        exact ih hl

theorem getSocket_setSocket_self {st : SocketStack} {h : Nat} {s : UdpEngineSocket}
    (s2 : UdpEngineSocket) (hl : st.getSocket h = some s) :
    (st.setSocket h s2).getSocket h = some s2 :=
  lookupSock_updateSock_self s2 hl

theorem lookupSock_removeSock_self (l : List (Nat × UdpEngineSocket)) (h : Nat) :
    lookupSock (removeSock l h) h = none := by
  induction l with
  | nil => rfl
  | cons p rest ih =>
      obtain ⟨k, sk⟩ := p
      by_cases hk : k = h
      · simp [removeSock, hk, ih]
      · simp [removeSock, lookupSock, hk, ih]

/-- Dropping the adapter removes its handle from the pool, whatever the state. -/
theorem drop_removes_handle (u : UdpSocket) (st : SocketStack) :
    (u.drop st).getSocket u.handle = none :=
  lookupSock_removeSock_self st.sockets u.handle

/-! ### C3 -/

/-- C3: a poll of recv_from never completes with an error: the result is
either Ready (Ok (bytes, endpoint)) or Pending, and in the Pending case
the poll has already woken its own task (self-wake event in the trace)
before suspending. -/
theorem recv_from_never_errors (u : UdpSocket) (st : SocketStack) (bufLen : Nat)
    (p : Poll (Except Error (Nat × IpEndpoint))) (st2 : SocketStack) (evs : List Ev)
    (h : u.recv_from_poll st bufLen = some (p, st2, evs)) :
    (∃ n ep, p = Poll.ready (Except.ok (n, ep))) ∨
      (p = Poll.pending ∧ Ev.selfWake ∈ evs) := by
  unfold UdpSocket.recv_from_poll UdpSocket.with_mut at h
  cases hs : st.getSocket u.handle with
  | none => simp [hs] at h
  | some sock =>
      cases hq : sock.rxQueue with
      | nil =>
          simp [hs, UdpEngineSocket.recv_slice, hq] at h
          right
          simp [← h.1, ← h.2.2]
      | cons d rest =>
          simp [hs, UdpEngineSocket.recv_slice, hq] at h
          left
          exact ⟨_, _, h.1.symm⟩

/-! ### C2 -/

/-- Helper: one poll of recv_from on a socket whose inbound buffer starts
with datagram d dequeues exactly d. -/
theorem recv_from_poll_cons (u : UdpSocket) (st : SocketStack)
    (sock : UdpEngineSocket) (d : Datagram) (rest : List Datagram) (bufLen : Nat)
    (h : st.getSocket u.handle = some sock) (hq : sock.rxQueue = d :: rest) :
    u.recv_from_poll st bufLen =
      some (Poll.ready (Except.ok (min d.payload.length bufLen, d.endpoint)),
            st.setSocket u.handle { sock with rxQueue := rest },
            [Ev.acquire, Ev.wake, Ev.release]) := by
  unfold UdpSocket.recv_from_poll UdpSocket.with_mut
  simp [h, UdpEngineSocket.recv_slice, hq, SocketStack.setSocket]

/-- C2: strict FIFO delivery — with the inbound buffer holding datagrams
dA, dB, dC (in that order, ahead of anything else), three successive
completed recv_from polls return exactly dA then dB then dC, each with
the number of bytes copied (min of payload and caller buffer length) and
the datagram's own remote endpoint. -/
theorem recv_from_fifo (u : UdpSocket) (st : SocketStack) (sock : UdpEngineSocket)
    (dA dB dC : Datagram) (rest : List Datagram) (bufLen : Nat)
    (h : st.getSocket u.handle = some sock)
    (hq : sock.rxQueue = dA :: dB :: dC :: rest) :
    ∃ st1 ev1 st2 ev2 st3 ev3,
      u.recv_from_poll st bufLen =
        some (Poll.ready (Except.ok (min dA.payload.length bufLen, dA.endpoint)),
              st1, ev1) ∧
      u.recv_from_poll st1 bufLen =
        some (Poll.ready (Except.ok (min dB.payload.length bufLen, dB.endpoint)),
              st2, ev2) ∧
      u.recv_from_poll st2 bufLen =
        some (Poll.ready (Except.ok (min dC.payload.length bufLen, dC.endpoint)),
              st3, ev3) := by
  have h1 := getSocket_setSocket_self { sock with rxQueue := dB :: dC :: rest } h
  have h2 := getSocket_setSocket_self { sock with rxQueue := dC :: rest } h1
  refine ⟨_, _, _, _, _, _,
    recv_from_poll_cons u st sock dA (dB :: dC :: rest) bufLen h hq,
    recv_from_poll_cons _ _ _ dB (dC :: rest) bufLen h1 rfl,
    recv_from_poll_cons _ _ _ dC rest bufLen h2 rfl⟩

/-! ### C1 -/

/-- C1: each poll of send_to has exactly one of three outcomes — the whole
datagram enqueued atomically with Ready (Ok ()); Pending with the send
waker registered and nothing enqueued (precisely when the outbound buffer
is full); or immediate Ready (Err NoRoute) (precisely when the
destination is unaddressable).  A partially enqueued datagram is never an
outcome: the outbound queue is unchanged or extended by the whole
datagram. -/
theorem send_to_poll_outcomes (u : UdpSocket) (st : SocketStack)
    (sock : UdpEngineSocket) (payload : List Nat) (remote : IpEndpoint)
    (p : Poll (Except Error Unit)) (st2 : SocketStack) (evs : List Ev)
    (h : st.getSocket u.handle = some sock)
    (hsend : u.send_to_poll st payload remote = some (p, st2, evs)) :
    ∃ sock2,
      st2.getSocket u.handle = some sock2 ∧
      (p = Poll.ready (Except.ok ()) ↔
        (routableTo st.iface remote = true ∧ sock.txQueue.length < sock.txCapacity)) ∧
      (p = Poll.pending ↔
        (routableTo st.iface remote = true ∧ sock.txCapacity ≤ sock.txQueue.length)) ∧
      (p = Poll.ready (Except.error Error.noRoute) ↔
        routableTo st.iface remote = false) ∧
      (p = Poll.ready (Except.ok ()) →
        sock2.txQueue = sock.txQueue ++ [⟨payload, remote⟩]) ∧
      (p = Poll.pending → sock2.txQueue = sock.txQueue ∧ sock2.sendWaker = true) ∧
      (p = Poll.ready (Except.error Error.noRoute) → sock2 = sock) ∧
      (sock2.txQueue = sock.txQueue ∨
        sock2.txQueue = sock.txQueue ++ [⟨payload, remote⟩]) := by
  unfold UdpSocket.send_to_poll UdpSocket.with_mut at hsend
  cases hr : routableTo st.iface remote with
  | false =>
      simp [h, UdpEngineSocket.send_slice, hr] at hsend
      obtain ⟨hp, hst2, -⟩ := hsend
      refine ⟨sock, ?_, ?_⟩
      · rw [← hst2]
        exact getSocket_setSocket_self _ h
      · subst hp
        simp [hr]
  | true =>
      by_cases hf : sock.txCapacity ≤ sock.txQueue.length
      · simp [h, UdpEngineSocket.send_slice, hr, hf] at hsend
        obtain ⟨hp, hst2, -⟩ := hsend
        refine ⟨sock.register_send_waker, ?_, ?_⟩
        · rw [← hst2]
          exact getSocket_setSocket_self _ h
        · subst hp
          simp [hr, hf, Nat.not_lt.mpr hf, UdpEngineSocket.register_send_waker]
      · simp [h, UdpEngineSocket.send_slice, hr, hf] at hsend
        obtain ⟨hp, hst2, -⟩ := hsend
        refine ⟨{ sock with txQueue := sock.txQueue ++ [⟨payload, remote⟩] }, ?_, ?_⟩
        · rw [← hst2]
          exact getSocket_setSocket_self _ h
        · subst hp
          simp [hr, hf, Nat.lt_of_not_le hf]

/-! ### C4 -/

/-- C4: bind has exactly three outcomes — Ok; InvalidState exactly when
the socket was already open; NoRoute exactly when the engine reports the
(port-resolved) endpoint unserviceable.  No other error kind occurs. -/
theorem bind_outcomes (u : UdpSocket) (st : SocketStack) (sock : UdpEngineSocket)
    (e : IpListenEndpoint) (r : Except BindError Unit) (st2 : SocketStack)
    (evs : List Ev)
    (h : st.getSocket u.handle = some sock)
    (hb : u.bind st e = some (r, st2, evs)) :
    (r = Except.ok () ∨ r = Except.error BindError.invalidState ∨
      r = Except.error BindError.noRoute) ∧
    (r = Except.error BindError.invalidState ↔ sock.is_open = true) ∧
    (r = Except.error BindError.noRoute ↔
      (sock.is_open = false ∧
        serviceable st.iface
          (if e.port = 0 then { e with port := (st.get_local_port).1 } else e) =
          false)) := by
  have hp : (st.get_local_port).2.getSocket u.handle = some sock := h
  have hif : (st.get_local_port).2.iface = st.iface := rfl
  unfold UdpSocket.bind UdpSocket.with_mut at hb
  by_cases hz : e.port = 0
  · cases ho : sock.is_open with
    | true =>
        simp [hz, hp, UdpEngineSocket.bind, ho] at hb
        obtain ⟨hr, -, -⟩ := hb
        subst hr
        exact ⟨by simp, by simp [ho], by simp [ho]⟩
    | false =>
        cases hs : serviceable st.iface { e with port := (st.get_local_port).1 } with
        | true =>
            simp [hz, hp, hif, UdpEngineSocket.bind, ho, hs] at hb
            obtain ⟨hr, -, -⟩ := hb
            subst hr
            exact ⟨by simp, by simp [ho], by simp [hz, ho, hs]⟩
        | false =>
            simp [hz, hp, hif, UdpEngineSocket.bind, ho, hs] at hb
            obtain ⟨hr, -, -⟩ := hb
            subst hr
            exact ⟨by simp, by simp [ho], by simp [hz, ho, hs]⟩
  · cases ho : sock.is_open with
    | true =>
        simp [hz, h, UdpEngineSocket.bind, ho] at hb
        obtain ⟨hr, -, -⟩ := hb
        subst hr
        exact ⟨by simp, by simp [ho], by simp [ho]⟩
    | false =>
        cases hs : serviceable st.iface e with
        | true =>
            simp [hz, h, UdpEngineSocket.bind, ho, hs] at hb
            obtain ⟨hr, -, -⟩ := hb
            subst hr
            exact ⟨by simp, by simp [ho], by simp [hz, ho, hs]⟩
        | false =>
            simp [hz, h, UdpEngineSocket.bind, ho, hs] at hb
            obtain ⟨hr, -, -⟩ := hb
            subst hr
            exact ⟨by simp, by simp [ho], by simp [hz, ho, hs]⟩

theorem close_trace (u : UdpSocket) (st : SocketStack) (st2 : SocketStack)
    (evs : List Ev) (hc : u.close st = some ((), st2, evs)) :
    evs = [Ev.acquire, Ev.wake, Ev.release] := by
  unfold UdpSocket.close UdpSocket.with_mut at hc
  cases hg : st.getSocket u.handle with
  | none => simp [hg] at hc
  | some s =>
      simp [hg] at hc
      exact hc.2.symm

theorem recv_from_poll_trace (u : UdpSocket) (st : SocketStack) (bufLen : Nat)
    (p : Poll (Except Error (Nat × IpEndpoint))) (st2 : SocketStack) (evs : List Ev)
    (h : u.recv_from_poll st bufLen = some (p, st2, evs)) :
    evs = [Ev.acquire, Ev.wake, Ev.release] ∨
      evs = [Ev.acquire, Ev.selfWake, Ev.wake, Ev.release, Ev.yieldEv] := by
  unfold UdpSocket.recv_from_poll UdpSocket.with_mut at h
  cases hg : st.getSocket u.handle with
  | none => simp [hg] at h
  | some s =>
      cases hq : s.rxQueue with
      | nil =>
          simp [hg, UdpEngineSocket.recv_slice, hq] at h
          right
          exact h.2.2.symm
      | cons d rest =>
          simp [hg, UdpEngineSocket.recv_slice, hq] at h
          left
          exact h.2.2.symm

theorem send_to_poll_trace (u : UdpSocket) (st : SocketStack) (payload : List Nat)
    (remote : IpEndpoint) (p : Poll (Except Error Unit)) (st2 : SocketStack)
    (evs : List Ev)
    (h : u.send_to_poll st payload remote = some (p, st2, evs)) :
    evs = [Ev.acquire, Ev.wake, Ev.release] ∨
      evs = [Ev.acquire, Ev.wake, Ev.release, Ev.yieldEv] := by
  unfold UdpSocket.send_to_poll UdpSocket.with_mut at h
  cases hg : st.getSocket u.handle with
  | none => simp [hg] at h
  | some s =>
      cases hr : routableTo st.iface remote with
      | false =>
          simp [hg, UdpEngineSocket.send_slice, hr] at h
          left
          exact h.2.2.symm
      | true =>
          by_cases hf : s.txCapacity ≤ s.txQueue.length
          · simp [hg, UdpEngineSocket.send_slice, hr, hf] at h
            right
            exact h.2.2.symm
          · simp [hg, UdpEngineSocket.send_slice, hr, hf] at h
            left
            exact h.2.2.symm

theorem bind_trace (u : UdpSocket) (st : SocketStack) (e : IpListenEndpoint)
    (r : Except BindError Unit) (st2 : SocketStack) (evs : List Ev)
    (hb : u.bind st e = some (r, st2, evs)) :
    evs = [Ev.acquire, Ev.wake, Ev.release] := by
  unfold UdpSocket.bind UdpSocket.with_mut at hb
  by_cases hz : e.port = 0
  · cases hg : (st.get_local_port).2.getSocket u.handle with
    | none => simp [hz, hg] at hb
    | some s =>
        rcases hsb : s.bind (st.get_local_port).2.iface
            { e with port := (st.get_local_port).1 } with ⟨r2, s2⟩
        simp [hz, hg, hsb] at hb
        rcases r2 with r2 | r2
        · cases r2 with
          | invalidState =>
              exact (congrArg (fun t => t.2.2) (Option.some.inj hb)).symm
          | unaddressable =>
              exact (congrArg (fun t => t.2.2) (Option.some.inj hb)).symm
        · cases r2
          exact (congrArg (fun t => t.2.2) (Option.some.inj hb)).symm
  · cases hg : st.getSocket u.handle with
    | none => simp [hz, hg] at hb
    | some s =>
        rcases hsb : s.bind st.iface e with ⟨r2, s2⟩
        simp [hz, hg, hsb] at hb
        rcases r2 with r2 | r2
        · cases r2 with
          | invalidState =>
              exact (congrArg (fun t => t.2.2) (Option.some.inj hb)).symm
          | unaddressable =>
              exact (congrArg (fun t => t.2.2) (Option.some.inj hb)).symm
        · cases r2
          exact (congrArg (fun t => t.2.2) (Option.some.inj hb)).symm

/-! ### C6 -/

/-- C6: every operation that goes through the guarded-write path — bind's
engine bind, each poll of recv_from and send_to, and close — signals the
process-wide wake exactly once, whatever the outcome of the closure. -/
theorem with_mut_ops_always_wake (u : UdpSocket) (st : SocketStack)
    (e : IpListenEndpoint) (bufLen : Nat) (payload : List Nat) (remote : IpEndpoint)
    (rb : Except BindError Unit) (stb : SocketStack) (evb : List Ev)
    (p1 : Poll (Except Error (Nat × IpEndpoint))) (st1 : SocketStack) (ev1 : List Ev)
    (p2 : Poll (Except Error Unit)) (st2 : SocketStack) (ev2 : List Ev)
    (st3 : SocketStack) (ev3 : List Ev)
    (hb : u.bind st e = some (rb, stb, evb))
    (hr : u.recv_from_poll st bufLen = some (p1, st1, ev1))
    (hs : u.send_to_poll st payload remote = some (p2, st2, ev2))
    (hc : u.close st = some ((), st3, ev3)) :
    countEv Ev.wake evb = 1 ∧ countEv Ev.wake ev1 = 1 ∧
      countEv Ev.wake ev2 = 1 ∧ countEv Ev.wake ev3 = 1 := by
  refine ⟨?_, ?_, ?_, ?_⟩
  · rw [bind_trace u st e rb stb evb hb]
    decide
  · rcases recv_from_poll_trace u st bufLen p1 st1 ev1 hr with h1 | h1 <;>
      rw [h1] <;> decide
  · rcases send_to_poll_trace u st payload remote p2 st2 ev2 hs with h1 | h1 <;>
      rw [h1] <;> decide
  · rw [close_trace u st st3 ev3 hc]
    decide

/-! ### C9 -/

/-- C9: at both suspension points the guarded access to the shared
context is released before the operation yields: in every trace of a
recv_from or send_to poll, the suspension event occurs only at guard
depth zero, after the guarded borrow has ended. -/
theorem polls_yield_outside_guard (u : UdpSocket) (st : SocketStack)
    (bufLen : Nat) (payload : List Nat) (remote : IpEndpoint)
    (p1 : Poll (Except Error (Nat × IpEndpoint))) (st1 : SocketStack) (ev1 : List Ev)
    (p2 : Poll (Except Error Unit)) (st2 : SocketStack) (ev2 : List Ev)
    (hr : u.recv_from_poll st bufLen = some (p1, st1, ev1))
    (hs : u.send_to_poll st payload remote = some (p2, st2, ev2)) :
    yieldsOutsideGuard ev1 0 = true ∧ yieldsOutsideGuard ev2 0 = true := by
  constructor
  · rcases recv_from_poll_trace u st bufLen p1 st1 ev1 hr with h1 | h1 <;>
      rw [h1] <;> decide
  · rcases send_to_poll_trace u st payload remote p2 st2 ev2 hs with h1 | h1 <;>
      rw [h1] <;> decide

/-! ### C10 -/

/-- C10: binding with port 0 signals the process-wide wake exactly once —
by the engine bind through the guarded-write path; the ephemeral-port
allocation touches the context directly, changing only the allocator
state and signalling nothing. -/
theorem bind_port_zero_single_wake (u : UdpSocket) (st : SocketStack)
    (e : IpListenEndpoint) (r : Except BindError Unit) (st2 : SocketStack)
    (evs : List Ev)
    (he : e.port = 0)
    (hb : u.bind st e = some (r, st2, evs)) :
    countEv Ev.wake evs = 1 ∧
      (st.get_local_port).2.sockets = st.sockets ∧
      (st.get_local_port).2.iface = st.iface ∧
      (st.get_local_port).2.getSocket u.handle = st.getSocket u.handle := by
  refine ⟨?_, rfl, rfl, rfl⟩
  rw [bind_trace u st e r st2 evs hb]
  decide

/-! ### C5 -/

/-- C5: bind resolves a zero port through the context's ephemeral-port
allocator and asks the engine to bind the substituted (ephemeral-range)
port; a nonzero port is passed to the engine unchanged — observed on a
successful bind through the endpoint the engine records. -/
theorem bind_port_resolution (u : UdpSocket) (st : SocketStack)
    (sock : UdpEngineSocket) (e : IpListenEndpoint) (st2 : SocketStack)
    (evs : List Ev)
    (h : st.getSocket u.handle = some sock)
    (hb : u.bind st e = some (Except.ok (), st2, evs)) :
    ∃ sock2, st2.getSocket u.handle = some sock2 ∧
      (e.port = 0 →
        sock2.endpoint = { e with port := (st.get_local_port).1 } ∧
        LOCAL_PORT_MIN ≤ (st.get_local_port).1 ∧
        (st.get_local_port).1 ≤ LOCAL_PORT_MAX) ∧
      (e.port ≠ 0 → sock2.endpoint = e) := by
  have hp : (st.get_local_port).2.getSocket u.handle = some sock := h
  have hif : (st.get_local_port).2.iface = st.iface := rfl
  unfold UdpSocket.bind UdpSocket.with_mut at hb
  by_cases hz : e.port = 0
  · cases ho : sock.is_open with
    | true => simp [hz, hp, UdpEngineSocket.bind, ho] at hb
    | false =>
        cases hs : serviceable st.iface { e with port := (st.get_local_port).1 } with
        | false => simp [hz, hp, hif, UdpEngineSocket.bind, ho, hs] at hb
        | true =>
            simp [hz, hp, hif, UdpEngineSocket.bind, ho, hs] at hb
            obtain ⟨hst2, -⟩ := hb
            refine ⟨{ sock with endpoint := { e with port := (st.get_local_port).1 } },
              ?_, ?_, ?_⟩
            · rw [← hst2]
              exact getSocket_setSocket_self _ hp
            · intro _
              refine ⟨rfl, ?_, ?_⟩
              · simp only [SocketStack.get_local_port, LOCAL_PORT_MIN, LOCAL_PORT_MAX]
                omega
              · simp only [SocketStack.get_local_port, LOCAL_PORT_MIN, LOCAL_PORT_MAX]
                omega
            · intro hne
              exact absurd hz hne
  · cases ho : sock.is_open with
    | true => simp [hz, h, UdpEngineSocket.bind, ho] at hb
    | false =>
        cases hs : serviceable st.iface e with
        | false => simp [hz, h, UdpEngineSocket.bind, ho, hs] at hb
        | true =>
            simp [hz, h, UdpEngineSocket.bind, ho, hs] at hb
            obtain ⟨hst2, -⟩ := hb
            refine ⟨{ sock with endpoint := e }, ?_, ?_, ?_⟩
            · rw [← hst2]
              exact getSocket_setSocket_self _ h
            · intro hz2
              exact absurd hz2 hz
            · intro _
              rfl

/-! ### C7 -/

/-- C7: close transitions the socket back to unbound without removing the
handle from the pool — afterwards is_open reports false and a subsequent
bind on the same adapter succeeds; destruction (drop) unconditionally
removes the handle from the pool, whatever the state. -/
theorem close_keeps_handle_drop_removes (u : UdpSocket) (st : SocketStack)
    (sock : UdpEngineSocket)
    (h : st.getSocket u.handle = some sock) :
    ∃ st2 evs,
      u.close st = some ((), st2, evs) ∧
      st2.getSocket u.handle = some sock.close ∧
      sock.close.is_open = false ∧
      (∃ b stq evq, u.is_open st2 = some (b, stq, evq) ∧ b = false) ∧
      (∀ e : IpListenEndpoint, e.port ≠ 0 → serviceable st.iface e = true →
        ∃ st3 evs3, u.bind st2 e = some (Except.ok (), st3, evs3)) ∧
      (∀ stq : SocketStack, (u.drop stq).getSocket u.handle = none) := by
  have hget2 : (st.setSocket u.handle sock.close).getSocket u.handle =
      some sock.close := getSocket_setSocket_self _ h
  have hif2 : (st.setSocket u.handle sock.close).iface = st.iface := rfl
  refine ⟨st.setSocket u.handle sock.close, [Ev.acquire, Ev.wake, Ev.release],
    ?_, hget2, ?_, ?_, ?_, fun stq => drop_removes_handle u stq⟩
  · unfold UdpSocket.close UdpSocket.with_mut
    simp [h, SocketStack.setSocket]
  · simp [UdpEngineSocket.close, UdpEngineSocket.is_open]
  · refine ⟨false, st.setSocket u.handle sock.close, [Ev.acquire, Ev.release], ?_, rfl⟩
    unfold UdpSocket.is_open UdpSocket.with_ref
    rw [hget2]
    simp [UdpEngineSocket.close, UdpEngineSocket.is_open]
  · intro e hne hserv
    have hopen : sock.close.is_open = false := by
      simp [UdpEngineSocket.close, UdpEngineSocket.is_open]
    have hb : u.bind (st.setSocket u.handle sock.close) e =
        some (Except.ok (),
          (st.setSocket u.handle sock.close).setSocket u.handle
            { sock.close with endpoint := e },
          [Ev.acquire, Ev.wake, Ev.release]) := by
      unfold UdpSocket.bind UdpSocket.with_mut
      simp [hne, hget2, hif2, UdpEngineSocket.bind, hopen, hserv]
      rfl
    exact ⟨_, _, hb⟩

/-! ### C8 -/

/-- C8: the status queries endpoint, is_open, may_send, may_recv go
through the read-only guarded path: they return the shared context
unchanged (no mutation, no consumption of buffered data) and their
traces contain no process-wide wake signal. -/
theorem status_queries_pure (u : UdpSocket) (st : SocketStack)
    (sock : UdpEngineSocket) (h : st.getSocket u.handle = some sock) :
    u.endpoint st = some (sock.endpoint, st, [Ev.acquire, Ev.release]) ∧
    u.is_open st = some (sock.is_open, st, [Ev.acquire, Ev.release]) ∧
    u.may_send st = some (sock.can_send, st, [Ev.acquire, Ev.release]) ∧
    u.may_recv st = some (sock.can_recv, st, [Ev.acquire, Ev.release]) ∧
    countEv Ev.wake [Ev.acquire, Ev.release] = 0 := by
  unfold UdpSocket.endpoint UdpSocket.is_open UdpSocket.may_send UdpSocket.may_recv
    UdpSocket.with_ref
  simp [h, countEv]

/-! ### Witnesses -/

/-- C1 witness: sending [1, 2, 3] to (1, 80) on the test socket enqueues
the whole datagram. -/
theorem send_to_poll_outcomes_witness :
    ∃ sock2 : UdpEngineSocket,
      sock2.txQueue = testSock.txQueue ++ [⟨[1, 2, 3], ⟨1, 80⟩⟩] := by
  obtain ⟨sock2, -, hiff1, -, -, himp1, -⟩ :=
    send_to_poll_outcomes tU testStack testSock [1, 2, 3] ⟨1, 80⟩ _ _ _ rfl rfl
  exact ⟨sock2, himp1 (hiff1.mpr (by decide))⟩

/-- C2 witness: the three buffered test datagrams come back in order. -/
theorem recv_from_fifo_witness :
    ∃ st1 ev1 st2 ev2 st3 ev3,
      tU.recv_from_poll testStack 16 =
        some (Poll.ready (Except.ok (min tD1.payload.length 16, tD1.endpoint)),
              st1, ev1) ∧
      tU.recv_from_poll st1 16 =
        some (Poll.ready (Except.ok (min tD2.payload.length 16, tD2.endpoint)),
              st2, ev2) ∧
      tU.recv_from_poll st2 16 =
        some (Poll.ready (Except.ok (min tD3.payload.length 16, tD3.endpoint)),
              st3, ev3) :=
  recv_from_fifo tU testStack testSock tD1 tD2 tD3 [] 16 rfl rfl

/-- C3 witness: on the test socket the first recv poll completes with
two bytes from endpoint (1, 5000). -/
theorem recv_from_never_errors_witness :
    (∃ n ep,
        (Poll.ready (Except.ok (2, ⟨1, 5000⟩)) :
            Poll (Except Error (Nat × IpEndpoint))) =
          Poll.ready (Except.ok (n, ep))) ∨
      ((Poll.ready (Except.ok ((2 : Nat), (⟨1, 5000⟩ : IpEndpoint))) :
          Poll (Except Error (Nat × IpEndpoint))) = Poll.pending ∧
        Ev.selfWake ∈ [Ev.acquire, Ev.wake, Ev.release]) :=
  recv_from_never_errors tU testStack 16 _ _ _ rfl

/-- C4 witness: binding the unbound test socket to the wildcard endpoint
with port 7777 succeeds. -/
theorem bind_outcomes_witness :
    ((Except.ok () : Except BindError Unit) = Except.ok () ∨
      (Except.ok () : Except BindError Unit) = Except.error BindError.invalidState ∨
      (Except.ok () : Except BindError Unit) = Except.error BindError.noRoute) ∧
    ((Except.ok () : Except BindError Unit) = Except.error BindError.invalidState ↔
      testSockU.is_open = true) ∧
    ((Except.ok () : Except BindError Unit) = Except.error BindError.noRoute ↔
      (testSockU.is_open = false ∧
        serviceable testStackU.iface
          (if (⟨none, 7777⟩ : IpListenEndpoint).port = 0 then
            { (⟨none, 7777⟩ : IpListenEndpoint) with
                port := (testStackU.get_local_port).1 }
          else (⟨none, 7777⟩ : IpListenEndpoint)) = false)) :=
  bind_outcomes tU testStackU testSockU ⟨none, 7777⟩ _ _ _ rfl rfl

/-- C5 witness: binding the unbound test socket with port 0 records the
first ephemeral port, 1025. -/
theorem bind_port_resolution_witness :
    ∃ sock2,
      (⟨[(0, ⟨⟨none, 1025⟩, [], [], 2, false⟩)], 1, testIface, 1⟩ :
          SocketStack).getSocket tU.handle = some sock2 ∧
      ((⟨none, 0⟩ : IpListenEndpoint).port = 0 →
        sock2.endpoint =
          { (⟨none, 0⟩ : IpListenEndpoint) with
              port := (testStackU.get_local_port).1 } ∧
        LOCAL_PORT_MIN ≤ (testStackU.get_local_port).1 ∧
        (testStackU.get_local_port).1 ≤ LOCAL_PORT_MAX) ∧
      ((⟨none, 0⟩ : IpListenEndpoint).port ≠ 0 →
        sock2.endpoint = (⟨none, 0⟩ : IpListenEndpoint)) :=
  bind_port_resolution tU testStackU testSockU ⟨none, 0⟩ _ _ rfl rfl

/-- C6 witness: on the bound test socket all four guarded-write
operations signal the wake exactly once. -/
theorem with_mut_ops_always_wake_witness :
    countEv Ev.wake [Ev.acquire, Ev.wake, Ev.release] = 1 ∧
    countEv Ev.wake [Ev.acquire, Ev.wake, Ev.release] = 1 ∧
    countEv Ev.wake [Ev.acquire, Ev.wake, Ev.release] = 1 ∧
    countEv Ev.wake [Ev.acquire, Ev.wake, Ev.release] = 1 :=
  with_mut_ops_always_wake tU testStack ⟨none, 7777⟩ 16 [1] ⟨1, 80⟩
    _ _ _ _ _ _ _ _ _ _ _ rfl rfl rfl rfl

/-- C7 witness: closing the bound test socket keeps handle 0 in the pool,
is_open turns false, rebinding succeeds, dropping removes the handle. -/
theorem close_keeps_handle_drop_removes_witness :
    ∃ st2 evs,
      tU.close testStack = some ((), st2, evs) ∧
      st2.getSocket tU.handle = some testSock.close ∧
      testSock.close.is_open = false ∧
      (∃ b stq evq, tU.is_open st2 = some (b, stq, evq) ∧ b = false) ∧
      (∀ e : IpListenEndpoint, e.port ≠ 0 → serviceable testStack.iface e = true →
        ∃ st3 evs3, tU.bind st2 e = some (Except.ok (), st3, evs3)) ∧
      (∀ stq : SocketStack, (tU.drop stq).getSocket tU.handle = none) :=
  close_keeps_handle_drop_removes tU testStack testSock rfl

/-- C8 witness: the four status queries on the bound test socket leave
the context unchanged and signal no wake. -/
theorem status_queries_pure_witness :
    tU.endpoint testStack =
      some (testSock.endpoint, testStack, [Ev.acquire, Ev.release]) ∧
    tU.is_open testStack =
      some (testSock.is_open, testStack, [Ev.acquire, Ev.release]) ∧
    tU.may_send testStack =
      some (testSock.can_send, testStack, [Ev.acquire, Ev.release]) ∧
    tU.may_recv testStack =
      some (testSock.can_recv, testStack, [Ev.acquire, Ev.release]) ∧
    countEv Ev.wake [Ev.acquire, Ev.release] = 0 :=
  status_queries_pure tU testStack testSock rfl

/-- C9 witness: on the empty-inbound, full-outbound test socket both
polls suspend, and in both traces the yield happens outside the guard. -/
theorem polls_yield_outside_guard_witness :
    yieldsOutsideGuard
        [Ev.acquire, Ev.selfWake, Ev.wake, Ev.release, Ev.yieldEv] 0 = true ∧
    yieldsOutsideGuard [Ev.acquire, Ev.wake, Ev.release, Ev.yieldEv] 0 = true :=
  polls_yield_outside_guard tU testStackFull 16 [1] ⟨1, 80⟩ _ _ _ _ _ _ rfl rfl

/-- C10 witness: binding the unbound test socket with port 0 signals the
wake exactly once and the allocator touches no pool or interface state. -/
theorem bind_port_zero_single_wake_witness :
    countEv Ev.wake [Ev.acquire, Ev.wake, Ev.release] = 1 ∧
      (testStackU.get_local_port).2.sockets = testStackU.sockets ∧
      (testStackU.get_local_port).2.iface = testStackU.iface ∧
      (testStackU.get_local_port).2.getSocket tU.handle =
        testStackU.getSocket tU.handle :=
  bind_port_zero_single_wake tU testStackU ⟨none, 0⟩ _ _ _ rfl rfl
